import Mathlib

/-!
Verification of the danmaku proxy service (`danmaku_proxy.py`): a shallow
embedding of the dual-bucket batching system, the paid-message priority
queue, the ingestion endpoint, the consumption gate and the delivery
primitive, with theorems settling the specification's claims.

Timestamps are modelled as integers (the source uses `time.time()` floats;
every property under study only compares and subtracts times, so ℤ is an
adequate carrier).  Fallible code paths (unguarded `None` subtraction,
raised exceptions) are modelled with `Except`.
-/

/-- A danmaku message as stored in the buckets and queues: the dict
`{'content': ..., 'danmu_type': ..., 'timestamp': ...}` built in
`receive_danmaku`. -/
structure Msg where
  content : String
  danmu_type : String
  timestamp : Int
deriving DecidableEq, Repr

/-- One bucket of `DualBucketSystem`: the dict with keys `danmakus`,
`start_time`, `is_active`, `is_consuming`.  `start_time` is `Option Int`
because bucket B is initialised with `start_time = None`. -/
structure Bucket where
  danmakus : List Msg
  start_time : Option Int
  is_active : Bool
  is_consuming : Bool
deriving DecidableEq, Repr

/-- Identity of a bucket inside the dual-bucket system (`bucket_a` /
`bucket_b`); the Python `current_bucket` reference is modelled as a value
of this type, so the write target is by construction one of the two
buckets. -/
inductive BucketId
  | A
  | B
deriving DecidableEq, Repr

/-- The opposite bucket. -/
def BucketId.other : BucketId → BucketId
  | .A => .B
  | .B => .A

/-- State of `DualBucketSystem`: capacity and lifetime from the
constructor, the two buckets, and the current write target. -/
structure DualBucketSystem where
  bucket_capacity : Nat
  bucket_lifetime : Int
  bucket_a : Bucket
  bucket_b : Bucket
  current : BucketId
deriving DecidableEq, Repr

/-- Dereference a bucket id. -/
def getBucket (s : DualBucketSystem) : BucketId → Bucket
  | .A => s.bucket_a
  | .B => s.bucket_b

/-- `DualBucketSystem.__init__` at time `t0`: bucket A active with
`start_time = t0`, bucket B inactive with `start_time = None`, the write
target is A. -/
def initSystem (cap : Nat) (lifetime : Int) (t0 : Int) : DualBucketSystem :=
  { bucket_capacity := cap
    bucket_lifetime := lifetime
    bucket_a := ⟨[], some t0, true, false⟩
    bucket_b := ⟨[], none, false, false⟩
    current := .A }

/-- `deque(maxlen=cap).append(m)`: append at the tail and drop from the
head until the length is back within `cap`. -/
def dequeAppend (cap : Nat) (xs : List Msg) (m : Msg) : List Msg :=
  let ys := xs ++ [m]
  if cap < ys.length then ys.drop (ys.length - cap) else ys

/-- `DualBucketSystem.add_danmaku`: if the current bucket is consuming,
switch the write target to the other bucket, activating it with a fresh
`start_time` when it was inactive; then append to the (possibly new)
current bucket. -/
def add_danmaku (s : DualBucketSystem) (m : Msg) (now : Int) : DualBucketSystem :=
  if (getBucket s s.current).is_consuming then
    match s.current with
    | .A =>
      let b0 := if s.bucket_b.is_active then s.bucket_b
                else { s.bucket_b with is_active := true, start_time := some now }
      { s with
        bucket_b := { b0 with danmakus := dequeAppend s.bucket_capacity b0.danmakus m }
        current := .B }
    | .B =>
      let a0 := if s.bucket_a.is_active then s.bucket_a
                else { s.bucket_a with is_active := true, start_time := some now }
      { s with
        bucket_a := { a0 with danmakus := dequeAppend s.bucket_capacity a0.danmakus m }
        current := .A }
  else
    match s.current with
    | .A =>
      { s with bucket_a :=
          { s.bucket_a with danmakus := dequeAppend s.bucket_capacity s.bucket_a.danmakus m } }
    | .B =>
      { s with bucket_b :=
          { s.bucket_b with danmakus := dequeAppend s.bucket_capacity s.bucket_b.danmakus m } }

/-- The bucket-B arm of `get_consumable_bucket`: active, not consuming,
non-empty, `start_time is not None`, and age strictly above the
lifetime. -/
def bucketBReady (s : DualBucketSystem) (now : Int) : Bool :=
  s.bucket_b.is_active && !s.bucket_b.is_consuming && !s.bucket_b.danmakus.isEmpty &&
    (match s.bucket_b.start_time with
     | some t => decide (s.bucket_lifetime < now - t)
     | none => false)

/-- `DualBucketSystem.get_consumable_bucket`.  The bucket-A arm subtracts
`bucket_a['start_time']` without a `None` guard: if A is active,
non-consuming and non-empty while its `start_time` is `None`, the source
raises a `TypeError`, modelled as `.error ()`. -/
def get_consumable_bucket (s : DualBucketSystem) (now : Int) :
    Except Unit (Option BucketId) :=
  if s.bucket_a.is_active && !s.bucket_a.is_consuming && !s.bucket_a.danmakus.isEmpty then
    match s.bucket_a.start_time with
    | none => .error ()
    | some t =>
      if s.bucket_lifetime < now - t then .ok (some .A)
      else if bucketBReady s now then .ok (some .B) else .ok none
  else if bucketBReady s now then .ok (some .B) else .ok none

/-- `DualBucketSystem.mark_bucket_consuming`: set `is_consuming` on the
given bucket. -/
def mark_bucket_consuming (s : DualBucketSystem) : BucketId → DualBucketSystem
  | .A => { s with bucket_a := { s.bucket_a with is_consuming := true } }
  | .B => { s with bucket_b := { s.bucket_b with is_consuming := true } }

/-- `DualBucketSystem.switch_bucket`: dispatches on the *current write
target*, not on which bucket was marked consuming.  The A branch clears
and deactivates A (leaving its stale `start_time`) and re-activates B with
a fresh `start_time`; the B branch clears B, resets its `start_time` to
`None`, and re-activates A. -/
def switch_bucket (s : DualBucketSystem) (now : Int) : DualBucketSystem :=
  match s.current with
  | .A =>
    { s with
      bucket_a := { s.bucket_a with is_active := false, is_consuming := false, danmakus := [] }
      bucket_b := { s.bucket_b with is_active := true, start_time := some now }
      current := .B }
  | .B =>
    { s with
      bucket_b := { danmakus := [], start_time := none, is_active := false, is_consuming := false }
      bucket_a := { s.bucket_a with is_active := true, start_time := some now }
      current := .A }

/-- The aggregated batch built by `get_merged_danmaku`. -/
structure MergedDanmaku where
  type : String
  content : String
  danmu_type : String
  count : Nat
deriving DecidableEq, Repr

/-- `DualBucketSystem.get_merged_danmaku`: `None` on an empty bucket,
otherwise the newline-join of the contents, the first message's
`danmu_type` (default `'danmaku'`), and the count. -/
def get_merged_danmaku (s : DualBucketSystem) (bid : BucketId) : Option MergedDanmaku :=
  let b := getBucket s bid
  if b.danmakus.isEmpty then none
  else
    some
      { type := "message"
        content := String.intercalate "\n" (b.danmakus.map (·.content))
        danmu_type := (match b.danmakus.head? with
                       | some dm => dm.danmu_type
                       | none => "danmaku")
        count := b.danmakus.length }

/-! ### Operation sequences over the dual-bucket system -/

/-- One call against the dual-bucket system: the five public operations.
`query` (`get_consumable_bucket`) and `merge` (`get_merged_danmaku`) are
read-only. -/
inductive SysOp
  | add (m : Msg) (now : Int)
  | query (now : Int)
  | mark (bid : BucketId)
  | merge (bid : BucketId)
  | switch (now : Int)
deriving DecidableEq, Repr

/-- Effect of one call on the system state (reads leave it unchanged). -/
def stepOp (s : DualBucketSystem) : SysOp → DualBucketSystem
  | .add m now => add_danmaku s m now
  | .query _ => s
  | .mark bid => mark_bucket_consuming s bid
  | .merge _ => s
  | .switch now => switch_bucket s now

/-- Run a sequence of calls. -/
def runOps (s : DualBucketSystem) (ops : List SysOp) : DualBucketSystem :=
  ops.foldl stepOp s

/-- An active bucket carries a `start_time`. -/
def activeHasStart (b : Bucket) : Bool :=
  !b.is_active || b.start_time.isSome

/-- The state invariant of the dual-bucket system: the write target is
active, and each active bucket has a non-`None` `start_time`. -/
def sysInv (s : DualBucketSystem) : Bool :=
  (getBucket s s.current).is_active && activeHasStart s.bucket_a && activeHasStart s.bucket_b

/-- `get_consumable_bucket` succeeds (does not hit the unguarded `None`
subtraction on bucket A). -/
def gcbOk (s : DualBucketSystem) (now : Int) : Bool :=
  match get_consumable_bucket s now with
  | .ok _ => true
  | .error _ => false

/-- Does a message with content `c` sit in either bucket? -/
def msgContentInSys (c : String) (s : DualBucketSystem) : Bool :=
  s.bucket_a.danmakus.any (fun m => m.content == c) ||
    s.bucket_b.danmakus.any (fun m => m.content == c)

/-- Does this call append a message with content `c`? -/
def opAddsContent (c : String) : SysOp → Bool
  | .add m _ => m.content == c
  | _ => false

/-! ### Priority lane and ingestion (`PaidDanmakuQueue`, `receive_danmaku`) -/

/-- `PaidDanmakuQueue.paid_types`. -/
def paid_types : List String := ["super_chat", "gift", "buy_guard"]

/-- `PaidDanmakuQueue.is_paid_message`. -/
def is_paid_message (t : String) : Bool := paid_types.contains t

/-- `PaidDanmakuQueue.put`: append if paid, returning whether the item was
accepted. -/
def paidQueuePut (q : List Msg) (m : Msg) : List Msg × Bool :=
  if is_paid_message m.danmu_type then (q ++ [m], true) else (q, false)

/-- `PaidDanmakuQueue.get_paid_message`: pop the head, or `None`. -/
def paidQueueGet (q : List Msg) : Option Msg × List Msg :=
  match q with
  | [] => (none, [])
  | m :: rest => (some m, rest)

/-- `PaidDanmakuQueue.has_paid_messages`. -/
def has_paid_messages (q : List Msg) : Bool := !q.isEmpty

/-- The allow-list checked by `receive_danmaku`. -/
def supported_types : List String := ["danmaku", "super_chat", "gift", "buy_guard"]

/-- Outcome of one `receive_danmaku` call: the HTTP status of the response
(400 for a rejected kind, 200 for the immediate success acknowledgment)
and the post-call priority queue and bucket system. -/
structure IngestResult where
  status : Nat
  paidQueue : List Msg
  sys : DualBucketSystem
deriving DecidableEq, Repr

/-- `receive_danmaku`: reject unknown kinds with HTTP 400 before touching
any state; route paid kinds to the priority queue and ordinary kinds to
the dual-bucket system; acknowledge immediately. -/
def receive_danmaku (content danmu_type : String) (now : Int)
    (q : List Msg) (s : DualBucketSystem) : IngestResult :=
  if !supported_types.contains danmu_type then ⟨400, q, s⟩
  else
    let d : Msg := ⟨content, danmu_type, now⟩
    if is_paid_message danmu_type then ⟨200, (paidQueuePut q d).1, s⟩
    else ⟨200, q, add_danmaku s d now⟩

/-! ### Consumption gate (`can_consume`) -/

/-- Outcome of one HTTP attempt against the consumption-status endpoint:
a 200 response with a parsed JSON body (whose `can_consume` field may be
absent), a 200 response whose body fails to parse, a non-200 status, or a
network error. -/
inductive GateResp
  | ok200 (b : Option Bool)
  | bad200
  | non200
  | netErr
deriving DecidableEq, Repr

/-- The attempts that `can_consume` retries on (everything except a 200
response with a parseable body). -/
def gateRetryable : GateResp → Bool
  | .ok200 _ => false
  | _ => true

/-- The retry loop of `can_consume`, on remaining budget `fuel` at attempt
index `i`.  Returns the boolean result, the number of attempts made, and
the number of `time.sleep(retry_interval)` calls performed (one per failed
attempt). -/
def can_consume_aux (resp : Nat → GateResp) : Nat → Nat → Bool × Nat × Nat
  | 0, i => (false, i, i)
  | fuel + 1, i =>
    match resp i with
    | .ok200 b => (b.getD false, i + 1, i)
    | _ => can_consume_aux resp fuel (i + 1)

/-- `can_consume`: the loop runs while `retry_count ≤ max_retry_count`, so
the budget is `max_retry_count + 1` attempts.  On exhaustion it returns
`False` (fail-closed). -/
def can_consume (resp : Nat → GateResp) (max_retry_count : Nat) : Bool × Nat × Nat :=
  can_consume_aux resp (max_retry_count + 1) 0

/-! ### Delivery primitive (`send_to_main_server`) -/

/-- Outcome of one POST attempt to the main server: a 200 response whose
JSON body has truthiness `success`, a non-200 status, or a raised
exception (transport error, timeout, or an unparseable body). -/
inductive SendResp
  | ok200 (success : Bool)
  | non200
  | exn
deriving DecidableEq, Repr

/-- The retry loop of `send_to_main_server` on remaining budget `fuel` at
attempt index `i`: a 200 response returns its `success` truthiness, a
non-200 status returns `False` immediately, and only an exception is
retried; once `retry_count` would exceed `max_retries` the exception is
re-raised (`.error ()`).  Also returns the number of attempts made.  The
`fuel = 0` case is the fall-through `return False` after the `while` loop
(unreachable from the top-level entry). -/
def send_aux (resp : Nat → SendResp) (maxR : Nat) : Nat → Nat → Except Unit Bool × Nat
  | 0, i => (.ok false, i)
  | fuel + 1, i =>
    match resp i with
    | .ok200 s => (.ok s, i + 1)
    | .non200 => (.ok false, i + 1)
    | .exn => if i + 1 ≤ maxR then send_aux resp maxR fuel (i + 1) else (.error (), i + 1)

/-- `send_to_main_server`: the loop runs while `retry_count ≤ max_retries`. -/
def send_to_main_server (resp : Nat → SendResp) (maxR : Nat) : Except Unit Bool × Nat :=
  send_aux resp maxR (maxR + 1) 0

/-- The value `send_to_main_server` returns on the first non-exception
attempt: the body truthiness of a 200 response, otherwise `False`. -/
def sendRespValue : SendResp → Bool
  | .ok200 s => s
  | _ => false

/-! ### Configuration surface (`ConfigLoader._load_config`) -/

/-- The keys of the flattened dict built from a successfully loaded
`config.json` (the key set is fixed by the code regardless of the file's
content). -/
def loadedConfigKeys : List String :=
  ["port", "node_capacity", "patch_lifetime", "ring_size",
   "consume_check_url", "consume_check_timeout", "max_retry_count", "retry_interval",
   "workers", "limit_concurrency", "backlog", "reload", "batch_size", "empty_sleep_time"]

/-- The keys of the built-in fallback configuration used when loading
fails. -/
def defaultConfigKeys : List String :=
  ["port", "node_capacity", "patch_lifetime", "ring_size",
   "consume_check_url", "consume_check_timeout", "max_retry_count", "retry_interval",
   "workers", "limit_concurrency", "backlog", "reload", "batch_size", "empty_sleep_time"]

/-- The configuration keys `send_to_main_server` reads
(`config['main_server_max_retry_count']` before the first attempt, and the
URL, timeout and retry interval inside the loop). -/
def deliveryConfigKeys : List String :=
  ["main_server_max_retry_count", "main_server_consume_url",
   "main_server_timeout", "main_server_retry_interval"]

/-! ### Scheduling loop bodies (`consume_async`, `process_danmaku_batch`) -/

/-- What one ordinary-loop tick did: whether `can_consume` was called,
the bucket system afterwards, and the merged batch handed to
`send_to_main_server` (if any). -/
structure OrdinaryTickResult where
  gateChecked : Bool
  sys : DualBucketSystem
  delivered : Option MergedDanmaku
deriving DecidableEq, Repr

/-- One iteration of the `consume_async` loop body: if the priority queue
has pending paid messages the tick does nothing else; otherwise the gate
is consulted, and only if it admits does the tick select, mark, merge and
deliver a bucket, calling `switch_bucket` whether the send succeeded or
raised.  `gate` is the result of the `can_consume` call this tick. -/
def consume_async_tick (paidQueue : List Msg) (gate : Bool)
    (s : DualBucketSystem) (now : Int) : Except Unit OrdinaryTickResult :=
  if has_paid_messages paidQueue then .ok ⟨false, s, none⟩
  else if !gate then .ok ⟨true, s, none⟩
  else
    match get_consumable_bucket s now with
    | .error e => .error e
    | .ok none => .ok ⟨true, s, none⟩
    | .ok (some bid) =>
      let s1 := mark_bucket_consuming s bid
      match get_merged_danmaku s1 bid with
      | none => .ok ⟨true, s1, none⟩
      | some md => .ok ⟨true, switch_bucket s1 now, some md⟩

/-- What one priority-loop tick did: the remaining paid queue and the
message sent (if one was pending). -/
structure PriorityTickResult where
  queue : List Msg
  delivered : Option Msg
deriving DecidableEq, Repr

/-- One iteration of the `process_danmaku_batch` loop body: pop the head
of the paid queue and send it directly to the main server.  The function
takes no gate input at all — the source never calls `can_consume` on this
path. -/
def process_danmaku_batch_tick (paidQueue : List Msg) : PriorityTickResult :=
  match paidQueue with
  | [] => ⟨[], none⟩
  | m :: rest => ⟨rest, some m⟩

/-! ### Concrete traces used by the scenario and race theorems -/

/-- Start of the drain-race trace: one ordinary message `"x"` appended at
`t = 0` to a fresh system with capacity 100 and lifetime 2. -/
def traceS1 : DualBucketSystem :=
  add_danmaku (initSystem 100 2 0) ⟨"x", "danmaku", 0⟩ 0

/-- Bucket A is then selected and marked consuming (draining). -/
def traceS2 : DualBucketSystem := mark_bucket_consuming traceS1 .A

/-- While A drains, a concurrent `add_danmaku` of `"m"` at `t = 10` is
routed to bucket B, which becomes the write target. -/
def traceS3 : DualBucketSystem := add_danmaku traceS2 ⟨"m", "danmaku", 10⟩ 10

/-- Delivery of A's batch finishes and `switch_bucket` runs at `t = 11`. -/
def traceS4 : DualBucketSystem := switch_bucket traceS3 11

/-- Eviction scenario: capacity 3, the four ordinary messages `"a"`,
`"b"`, `"c"`, `"d"` appended in order. -/
def evictState : DualBucketSystem :=
  add_danmaku
    (add_danmaku
      (add_danmaku
        (add_danmaku (initSystem 3 8 0) ⟨"a", "danmaku", 0⟩ 0)
        ⟨"b", "danmaku", 0⟩ 0)
      ⟨"c", "danmaku", 0⟩ 0)
    ⟨"d", "danmaku", 0⟩ 0

/-- Expiry scenario: lifetime 2, one message appended at `t = 0`. -/
def expiryState : DualBucketSystem :=
  add_danmaku (initSystem 100 2 0) ⟨"hello", "danmaku", 0⟩ 0

/-! ### Theorems -/

/-- C7: the flattened configuration (whether loaded from `config.json` or
the built-in default) never contains any of the four `main_server_*` keys
that `send_to_main_server` reads, so `config['main_server_max_retry_count']`
raises a `KeyError` on every delivery call — contrary to the claim that
those lookups always succeed. -/
theorem delivery_config_keys_missing :
    deliveryConfigKeys.all
      (fun k => !(loadedConfigKeys.contains k) && !(defaultConfigKeys.contains k)) = true := by
  decide

/-- C2 (counterexample): in state `traceS3`, bucket A is the slot marked
draining, but the write target has moved to B.  `switch_bucket` then
clears and deactivates B — the unmarked, live write target — while A keeps
its messages and its consuming flag: it does not clear and deactivate
"exactly the slot that was marked draining". -/
theorem switch_bucket_clears_unmarked_slot :
    traceS3.bucket_a.is_consuming = true ∧
    traceS3.bucket_b.is_consuming = false ∧
    traceS3.current = .B ∧
    (switch_bucket traceS3 11).bucket_a.danmakus = [⟨"x", "danmaku", 0⟩] ∧
    (switch_bucket traceS3 11).bucket_a.is_consuming = true ∧
    (switch_bucket traceS3 11).bucket_b.danmakus = [] ∧
    (switch_bucket traceS3 11).bucket_b.is_active = false := by
  decide

/-- C2 (amended): `switch_bucket` clears, deactivates and un-marks
whichever slot is the current write target when it is called (not
necessarily the slot marked draining), and unconditionally re-activates
the opposite slot with a fresh `activation_time`, making it the new write
target while preserving its messages. -/
theorem switch_bucket_resets_current_target (s : DualBucketSystem) (now : Int) :
    (getBucket (switch_bucket s now) s.current).danmakus = [] ∧
    (getBucket (switch_bucket s now) s.current).is_active = false ∧
    (getBucket (switch_bucket s now) s.current).is_consuming = false ∧
    (getBucket (switch_bucket s now) s.current.other).is_active = true ∧
    (getBucket (switch_bucket s now) s.current.other).start_time = some now ∧
    (getBucket (switch_bucket s now) s.current.other).danmakus
      = (getBucket s s.current.other).danmakus ∧
    (switch_bucket s now).current = s.current.other := by
  obtain ⟨cap, lt, a, b, cur⟩ := s
  cases cur <;> simp [switch_bucket, getBucket, BucketId.other]

/-- C8: if the priority lane is non-empty at the start of an
ordinary-loop tick, that tick consults no gate, performs no bucket
selection/marking/merging/delivery and leaves the bucket system
untouched, for every gate state; the priority-loop tick (which takes no
gate input at all) delivers the pending monetized message. -/
theorem priority_pending_skips_ordinary_work
    (m : Msg) (rest : List Msg) (gate : Bool) (s : DualBucketSystem) (now : Int) :
    consume_async_tick (m :: rest) gate s now = .ok ⟨false, s, none⟩ ∧
    process_danmaku_batch_tick (m :: rest) = ⟨rest, some m⟩ := by
  constructor
  · simp [consume_async_tick, has_paid_messages]
  · rfl

/-- C4: a slot append is total (never blocks or errors, being a pure
function), keeps the length within the capacity, appends at the tail when
there is room and evicts exactly the oldest message when full; concretely,
capacity 3 with `"a","b","c","d"` appended leaves `["b","c","d"]` in the
slot and merging yields content `"b\nc\nd"` with count 3 and the first
message's subtype. -/
theorem bounded_buffer_append_evicts_oldest (cap : Nat) (xs : List Msg) (m : Msg) :
    (xs.length ≤ cap → (dequeAppend cap xs m).length ≤ cap) ∧
    (xs.length < cap → dequeAppend cap xs m = xs ++ [m]) ∧
    (xs.length = cap → 0 < cap → dequeAppend cap xs m = xs.tail ++ [m]) ∧
    evictState.bucket_a.danmakus.map (·.content) = ["b", "c", "d"] ∧
    get_merged_danmaku evictState .A
      = some ⟨"message", "b\nc\nd", "danmaku", 3⟩ := by
  refine ⟨?_, ?_, ?_, by decide, by decide⟩
  · intro h
    unfold dequeAppend
    by_cases hc : cap < (xs ++ [m]).length
    · simp only [hc, if_true, List.length_drop]
      omega
    · simp only [hc, if_false]
      simp only [List.length_append, List.length_cons, List.length_nil, not_lt] at hc ⊢
      omega
  · intro h
    unfold dequeAppend
    rw [if_neg]
    simp only [List.length_append, List.length_cons, List.length_nil, not_lt]
    omega
  · intro h hpos
    unfold dequeAppend
    rw [if_pos (by simp only [List.length_append, List.length_cons, List.length_nil]; omega)]
    have h1 : (xs ++ [m]).length - cap = 1 := by
      simp only [List.length_append, List.length_cons, List.length_nil]
      omega
    rw [h1, List.drop_append_of_le_length (by omega), List.drop_one]

/-- Witness for C4 at the scenario input: the four concrete appends with
capacity 3 evict exactly `"a"`. -/
theorem bounded_buffer_append_evicts_oldest_witness :
    dequeAppend 3
        [⟨"a", "danmaku", 0⟩, ⟨"b", "danmaku", 0⟩, ⟨"c", "danmaku", 0⟩]
        ⟨"d", "danmaku", 0⟩
      = [⟨"b", "danmaku", 0⟩, ⟨"c", "danmaku", 0⟩, ⟨"d", "danmaku", 0⟩] := by
  have h := (bounded_buffer_append_evicts_oldest 3
      [⟨"a", "danmaku", 0⟩, ⟨"b", "danmaku", 0⟩, ⟨"c", "danmaku", 0⟩]
      ⟨"d", "danmaku", 0⟩).2.2.1 (by decide) (by decide)
  simpa using h

/-- The spec's `is_expired(now, lifetime)` predicate, written from the
spec's words: `is_active ∧ ¬is_draining ∧ non-empty ∧ (now − activation_time)
> lifetime` (an inactive slot with no activation time is never expired). -/
def slotExpiredSpec (b : Bucket) (now lifetime : Int) : Bool :=
  b.is_active && !b.is_consuming && !b.danmakus.isEmpty &&
    (match b.start_time with
     | some t => decide (lifetime < now - t)
     | none => false)

/-- The spec's `select_drainable(now, lifetime)`, written from the spec's
words: the first slot, checking A then B, satisfying `is_expired`;
otherwise none. -/
def selectDrainableSpec (s : DualBucketSystem) (now : Int) : Option BucketId :=
  if slotExpiredSpec s.bucket_a now s.bucket_lifetime then some .A
  else if slotExpiredSpec s.bucket_b now s.bucket_lifetime then some .B
  else none

/-- C5: whenever active buckets carry an activation time (which holds in
every reachable state), `get_consumable_bucket` returns exactly the
spec-side selection — the first of A then B that is active, not draining,
non-empty and strictly older than the lifetime — and the lifetime-2
scenario selects nothing at `now = 1` and the slot at `now = 3`. -/
theorem get_consumable_bucket_selects_first_expired
    (s : DualBucketSystem) (now : Int)
    (hA : s.bucket_a.is_active = true → s.bucket_a.start_time.isSome = true) :
    get_consumable_bucket s now = .ok (selectDrainableSpec s now) ∧
    get_consumable_bucket expiryState 1 = .ok none ∧
    get_consumable_bucket expiryState 3 = .ok (some .A) := by
  refine ⟨?_, by rfl, by rfl⟩
  have hs2 : slotExpiredSpec s.bucket_b now s.bucket_lifetime = bucketBReady s now := rfl
  cases hact : s.bucket_a.is_active with
  | false =>
    have hsA : slotExpiredSpec s.bucket_a now s.bucket_lifetime = false := by
      simp [slotExpiredSpec, hact]
    cases hb : bucketBReady s now <;>
      simp [get_consumable_bucket, selectDrainableSpec, hact, hsA, hs2, hb]
  | true =>
    obtain ⟨t, ht⟩ := Option.isSome_iff_exists.mp (hA hact)
    cases hcons : s.bucket_a.is_consuming with
    | true =>
      have hsA : slotExpiredSpec s.bucket_a now s.bucket_lifetime = false := by
        simp [slotExpiredSpec, hcons]
      cases hb : bucketBReady s now <;>
        simp [get_consumable_bucket, selectDrainableSpec, hact, hcons, hsA, hs2, hb]
    | false =>
      cases hemp : s.bucket_a.danmakus.isEmpty with
      | true =>
        have hsA : slotExpiredSpec s.bucket_a now s.bucket_lifetime = false := by
          simp [slotExpiredSpec, hemp]
        cases hb : bucketBReady s now <;>
          simp [get_consumable_bucket, selectDrainableSpec, hact, hcons, hemp, hsA, hs2, hb]
      | false =>
        by_cases hexp : s.bucket_lifetime < now - t
        · have hsA : slotExpiredSpec s.bucket_a now s.bucket_lifetime = true := by
            simp [slotExpiredSpec, hact, hcons, hemp, ht, hexp]
          simp [get_consumable_bucket, selectDrainableSpec, hact, hcons, hemp, ht, hexp, hsA]
        · have hsA : slotExpiredSpec s.bucket_a now s.bucket_lifetime = false := by
            simp [slotExpiredSpec, ht, hexp]
          cases hb : bucketBReady s now <;>
            simp [get_consumable_bucket, selectDrainableSpec, hact, hcons, hemp, ht, hexp,
              hsA, hs2, hb]

/-- Witness for C5 at the scenario state (lifetime 2, one message appended
at `t = 0`). -/
theorem get_consumable_bucket_selects_first_expired_witness :
    get_consumable_bucket expiryState 1 = .ok none ∧
    get_consumable_bucket expiryState 3 = .ok (some .A) :=
  (get_consumable_bucket_selects_first_expired expiryState 3 (by decide)).2

/-- When every attempt in the window is retryable, the gate loop consumes
its whole budget, sleeping once per failed attempt, and returns `false`. -/
lemma can_consume_aux_all_retryable (resp : Nat → GateResp) :
    ∀ (fuel i : Nat), (∀ j, i ≤ j → j < i + fuel → gateRetryable (resp j) = true) →
      can_consume_aux resp fuel i = (false, i + fuel, i + fuel) := by
  intro fuel
  induction fuel with
  | zero => intro i _; simp [can_consume_aux]
  | succ n ih =>
    intro i h
    have h0 : gateRetryable (resp i) = true := h i le_rfl (by omega)
    unfold can_consume_aux
    cases hr : resp i with
    | ok200 b => rw [hr] at h0; simp [gateRetryable] at h0
    | bad200 =>
      have hrec := ih (i + 1) (fun j hj1 hj2 => h j (by omega) (by omega))
      rw [show i + 1 + n = i + (n + 1) from by omega] at hrec
      simp [hrec]
    | non200 =>
      have hrec := ih (i + 1) (fun j hj1 hj2 => h j (by omega) (by omega))
      rw [show i + 1 + n = i + (n + 1) from by omega] at hrec
      simp [hrec]
    | netErr =>
      have hrec := ih (i + 1) (fun j hj1 hj2 => h j (by omega) (by omega))
      rw [show i + 1 + n = i + (n + 1) from by omega] at hrec
      simp [hrec]

/-- The gate loop returns `true` exactly when, within the window, some
attempt gets a 200 response carrying `can_consume = true` after only
retryable attempts. -/
lemma can_consume_aux_true_iff (resp : Nat → GateResp) :
    ∀ (fuel i : Nat),
      ((can_consume_aux resp fuel i).1 = true ↔
        ∃ k, i ≤ k ∧ k < i + fuel ∧ resp k = .ok200 (some true) ∧
          ∀ j, i ≤ j → j < k → gateRetryable (resp j) = true) := by
  intro fuel
  induction fuel with
  | zero =>
    intro i
    simp only [can_consume_aux]
    constructor
    · intro h; exact absurd h (by simp)
    · rintro ⟨k, hk1, hk2, -, -⟩; omega
  | succ n ih =>
    intro i
    unfold can_consume_aux
    cases hr : resp i with
    | ok200 b =>
      simp only []
      constructor
      · intro hb
        refine ⟨i, le_rfl, by omega, ?_, by omega⟩
        rw [hr]
        cases b with
        | none => simp at hb
        | some v => cases v with
          | false => simp at hb
          | true => rfl
      · rintro ⟨k, hk1, hk2, hk3, hk4⟩
        rcases Nat.eq_or_lt_of_le hk1 with heq | hlt
        · subst heq
          rw [hr] at hk3
          cases hk3
          rfl
        · have := hk4 i le_rfl hlt
          rw [hr] at this
          simp [gateRetryable] at this
    | bad200 =>
      rw [ih (i + 1)]
      constructor
      · rintro ⟨k, hk1, hk2, hk3, hk4⟩
        refine ⟨k, by omega, by omega, hk3, ?_⟩
        intro j hj1 hj2
        rcases Nat.eq_or_lt_of_le hj1 with heq | hlt
        · subst heq; rw [hr]; rfl
        · exact hk4 j hlt hj2
      · rintro ⟨k, hk1, hk2, hk3, hk4⟩
        have hki : i < k := by
          rcases Nat.eq_or_lt_of_le hk1 with heq | hlt
          · subst heq; rw [hr] at hk3; cases hk3
          · exact hlt
        exact ⟨k, by omega, by omega, hk3, fun j hj1 hj2 => hk4 j (by omega) hj2⟩
    | non200 =>
      rw [ih (i + 1)]
      constructor
      · rintro ⟨k, hk1, hk2, hk3, hk4⟩
        refine ⟨k, by omega, by omega, hk3, ?_⟩
        intro j hj1 hj2
        rcases Nat.eq_or_lt_of_le hj1 with heq | hlt
        · subst heq; rw [hr]; rfl
        · exact hk4 j hlt hj2
      · rintro ⟨k, hk1, hk2, hk3, hk4⟩
        have hki : i < k := by
          rcases Nat.eq_or_lt_of_le hk1 with heq | hlt
          · subst heq; rw [hr] at hk3; cases hk3
          · exact hlt
        exact ⟨k, by omega, by omega, hk3, fun j hj1 hj2 => hk4 j (by omega) hj2⟩
    | netErr =>
      rw [ih (i + 1)]
      constructor
      · rintro ⟨k, hk1, hk2, hk3, hk4⟩
        refine ⟨k, by omega, by omega, hk3, ?_⟩
        intro j hj1 hj2
        rcases Nat.eq_or_lt_of_le hj1 with heq | hlt
        · subst heq; rw [hr]; rfl
        · exact hk4 j hlt hj2
      · rintro ⟨k, hk1, hk2, hk3, hk4⟩
        have hki : i < k := by
          rcases Nat.eq_or_lt_of_le hk1 with heq | hlt
          · subst heq; rw [hr] at hk3; cases hk3
          · exact hlt
        exact ⟨k, by omega, by omega, hk3, fun j hj1 hj2 => hk4 j (by omega) hj2⟩

/-- The gate loop makes at most `i + fuel` attempts and sleeps. -/
lemma can_consume_aux_attempts_le (resp : Nat → GateResp) :
    ∀ (fuel i : Nat),
      (can_consume_aux resp fuel i).2.1 ≤ i + fuel ∧
        (can_consume_aux resp fuel i).2.2 ≤ i + fuel := by
  intro fuel
  induction fuel with
  | zero => intro i; simp [can_consume_aux]
  | succ n ih =>
    intro i
    unfold can_consume_aux
    cases hr : resp i with
    | ok200 b => exact ⟨by simp, by simp⟩
    | bad200 => have := ih (i + 1); constructor <;> [exact le_trans this.1 (by omega);
        exact le_trans this.2 (by omega)]
    | non200 => have := ih (i + 1); constructor <;> [exact le_trans this.1 (by omega);
        exact le_trans this.2 (by omega)]
    | netErr => have := ih (i + 1); constructor <;> [exact le_trans this.1 (by omega);
        exact le_trans this.2 (by omega)]

/-- C3: `can_consume` retries on a non-200 response, a network error, or a
malformed body (the retryable outcomes), making at most
`max_retry_count + 1` attempts in total — i.e. at most `max_retry_count`
additional attempts, each failed attempt followed by one
`time.sleep(retry_interval)` — returns `false` once the budget is
exhausted on persistent failure (fail-closed), and returns `true` exactly
when some in-budget attempt got a 200 response carrying
`can_consume = true` after only retryable outcomes. -/
theorem can_consume_retry_fail_closed (resp : Nat → GateResp) (maxR : Nat) :
    ((∀ j, j ≤ maxR → gateRetryable (resp j) = true) →
        can_consume resp maxR = (false, maxR + 1, maxR + 1)) ∧
    ((can_consume resp maxR).1 = true ↔
        ∃ k, k ≤ maxR ∧ resp k = .ok200 (some true) ∧
          ∀ j, j < k → gateRetryable (resp j) = true) ∧
    (can_consume resp maxR).2.1 ≤ maxR + 1 ∧
    (can_consume resp maxR).2.2 ≤ maxR + 1 := by
  refine ⟨?_, ?_, ?_, ?_⟩
  · intro h
    have := can_consume_aux_all_retryable resp (maxR + 1) 0
      (fun j hj1 hj2 => h j (by omega))
    simpa using this
  · unfold can_consume
    rw [can_consume_aux_true_iff resp (maxR + 1) 0]
    constructor
    · rintro ⟨k, -, hk2, hk3, hk4⟩
      exact ⟨k, by omega, hk3, fun j hj => hk4 j (by omega) hj⟩
    · rintro ⟨k, hk1, hk2, hk3⟩
      exact ⟨k, by omega, by omega, hk2, fun j _ hj => hk3 j hj⟩
  · simpa using (can_consume_aux_attempts_le resp (maxR + 1) 0).1
  · simpa using (can_consume_aux_attempts_le resp (maxR + 1) 0).2

/-- Witness for C3: with every attempt a network error and a retry budget
of 2, the gate makes 3 attempts (2 retries), sleeps 3 times, and returns
`false`. -/
theorem can_consume_retry_fail_closed_witness :
    can_consume (fun _ => .netErr) 2 = (false, 3, 3) :=
  (can_consume_retry_fail_closed (fun _ => .netErr) 2).1 (fun _ _ => rfl)

/-- On persistent exceptions the delivery loop re-raises after exactly
`maxR + 1` attempts. -/
lemma send_aux_exn_exhaust (resp : Nat → SendResp) (maxR : Nat) :
    ∀ (fuel i : Nat), i ≤ maxR → i + fuel = maxR + 1 →
      (∀ j, i ≤ j → j ≤ maxR → resp j = .exn) →
      send_aux resp maxR fuel i = (.error (), maxR + 1) := by
  intro fuel
  induction fuel with
  | zero => intro i hi hfi _; omega
  | succ n ih =>
    intro i hi hfi h
    have h0 : resp i = .exn := h i le_rfl hi
    unfold send_aux
    rw [h0]
    by_cases hc : i + 1 ≤ maxR
    · rw [if_pos hc]
      exact ih (i + 1) hc (by omega) (fun j hj1 hj2 => h j (by omega) hj2)
    · rw [if_neg hc]
      have : i = maxR := by omega
      subst this
      rfl

/-- The delivery loop stops at the first non-exception attempt, returning
the 200 body's `success` truthiness or `False` on a non-200 status —
without consuming any further retry budget. -/
lemma send_aux_first_non_exn (resp : Nat → SendResp) (maxR : Nat) :
    ∀ (fuel i k : Nat), i + fuel = maxR + 1 → i ≤ k → k ≤ maxR →
      (∀ j, i ≤ j → j < k → resp j = .exn) → resp k ≠ .exn →
      send_aux resp maxR fuel i = (.ok (sendRespValue (resp k)), k + 1) := by
  intro fuel
  induction fuel with
  | zero => intro i k hfi hik hk _ _; omega
  | succ n ih =>
    intro i k hfi hik hk hpre hk2
    unfold send_aux
    rcases Nat.eq_or_lt_of_le hik with heq | hlt
    · subst heq
      cases hr : resp i with
      | ok200 s => simp [sendRespValue, hr]
      | non200 => simp [sendRespValue, hr]
      | exn => exact absurd hr hk2
    · have h0 : resp i = .exn := hpre i le_rfl hlt
      rw [h0]
      rw [if_pos (by omega)]
      exact ih (i + 1) k (by omega) (by omega) hk (fun j hj1 hj2 => hpre j (by omega) hj2) hk2

/-- The delivery loop never makes more than `i + fuel` attempts. -/
lemma send_aux_attempts_le (resp : Nat → SendResp) (maxR : Nat) :
    ∀ (fuel i : Nat), (send_aux resp maxR fuel i).2 ≤ i + fuel := by
  intro fuel
  induction fuel with
  | zero => intro i; simp [send_aux]
  | succ n ih =>
    intro i
    unfold send_aux
    cases hr : resp i with
    | ok200 s => simp
    | non200 => simp
    | exn =>
      by_cases hc : i + 1 ≤ maxR
      · rw [if_pos hc]
        exact le_trans (ih (i + 1)) (by omega)
      · rw [if_neg hc]
        simp

/-- The concrete run refuting C6 as stated: the first POST attempt gets a
non-200 response and every later attempt would succeed. -/
def ceSendResp : Nat → SendResp := fun i => if i = 0 then .non200 else .ok200 true

/-- C6 (counterexample): with retry budget 3, a non-200 first response and
a success available on any retry, `send_to_main_server` returns `False`
after a single attempt — it does not retry on a non-success response, so
the claim that it "retries on a non-success response as well as on a
transport error" is false on this input. -/
theorem send_to_main_server_no_retry_on_non_success :
    ceSendResp 0 = .non200 ∧ ceSendResp 1 = .ok200 true ∧
    send_to_main_server ceSendResp 3 = (.ok false, 1) :=
  ⟨rfl, rfl, rfl⟩

/-- C6 (amended): `send_to_main_server` retries only on a raised exception
(transport error, timeout, or unparseable body), up to the configured
maximum with a fixed `main_server_retry_interval` delay between attempts;
the first non-exception attempt ends the loop immediately, returning the
200 body's `success` truthiness or `False` on a non-200 status; after
exhausting retries it re-raises the exception to the caller rather than
blocking indefinitely, and in every case it makes at most `maxR + 1`
attempts. -/
theorem send_to_main_server_retries_only_on_exception
    (resp : Nat → SendResp) (maxR : Nat) :
    (send_to_main_server resp maxR).2 ≤ maxR + 1 ∧
    ((∀ j, j ≤ maxR → resp j = .exn) →
        send_to_main_server resp maxR = (.error (), maxR + 1)) ∧
    (∀ k, k ≤ maxR → (∀ j, j < k → resp j = .exn) → resp k ≠ .exn →
        send_to_main_server resp maxR = (.ok (sendRespValue (resp k)), k + 1)) := by
  refine ⟨?_, ?_, ?_⟩
  · simpa using send_aux_attempts_le resp maxR (maxR + 1) 0
  · intro h
    exact send_aux_exn_exhaust resp maxR (maxR + 1) 0 (by omega) (by omega)
      (fun j _ hj2 => h j hj2)
  · intro k hk hpre hk2
    exact send_aux_first_non_exn resp maxR (maxR + 1) 0 k (by omega) (by omega) hk
      (fun j _ hj2 => hpre j hj2) hk2

/-- Witness for C6's amended theorem: persistent transport errors with a
retry budget of 1 exhaust after 2 attempts and re-raise. -/
theorem send_to_main_server_retries_only_on_exception_witness :
    send_to_main_server (fun _ => .exn) 1 = (.error (), 2) :=
  (send_to_main_server_retries_only_on_exception (fun _ => .exn) 1).2.1 (fun _ _ => rfl)

/-- C9: an ingestion call whose `danmu_type` is outside the allow-list
`{danmaku, super_chat, gift, buy_guard}` is rejected with HTTP 400 before
any state is touched (neither the priority queue nor either bucket
changes); an accepted monetized kind is acknowledged with HTTP 200 and
appended to the priority lane with the buckets untouched; the ordinary
kind `danmaku` is acknowledged with HTTP 200 and routed to the dual-bucket
batcher with the priority lane untouched.  The acknowledgment is the
immediate return value — the function does not wait on batching or
delivery. -/
theorem receive_danmaku_classifies_and_acknowledges
    (content danmu_type : String) (now : Int) (q : List Msg) (s : DualBucketSystem) :
    (supported_types.contains danmu_type = false →
        receive_danmaku content danmu_type now q s = ⟨400, q, s⟩) ∧
    (is_paid_message danmu_type = true →
        receive_danmaku content danmu_type now q s
          = ⟨200, q ++ [⟨content, danmu_type, now⟩], s⟩) ∧
    (danmu_type = "danmaku" →
        receive_danmaku content danmu_type now q s
          = ⟨200, q, add_danmaku s ⟨content, danmu_type, now⟩ now⟩) := by
  refine ⟨?_, ?_, ?_⟩
  · intro h
    unfold receive_danmaku
    rw [h]
    rfl
  · intro h
    have hmem : danmu_type = "super_chat" ∨ danmu_type = "gift" ∨ danmu_type = "buy_guard" := by
      simpa [is_paid_message, paid_types] using h
    rcases hmem with h1 | h1 | h1 <;> subst h1 <;> rfl
  · intro h
    subst h
    rfl

/-- Witness for C9 at three concrete calls: an unknown kind is rejected
with 400 and no state change; a `gift` is acknowledged and queued on the
priority lane; a `danmaku` is acknowledged and appended to the batcher. -/
theorem receive_danmaku_classifies_and_acknowledges_witness :
    receive_danmaku "hi" "bogus" 0 [] (initSystem 3 8 0)
        = ⟨400, [], initSystem 3 8 0⟩ ∧
    receive_danmaku "hi" "gift" 0 [] (initSystem 3 8 0)
        = ⟨200, [⟨"hi", "gift", 0⟩], initSystem 3 8 0⟩ ∧
    receive_danmaku "hi" "danmaku" 0 [] (initSystem 3 8 0)
        = ⟨200, [], add_danmaku (initSystem 3 8 0) ⟨"hi", "danmaku", 0⟩ 0⟩ :=
  ⟨(receive_danmaku_classifies_and_acknowledges "hi" "bogus" 0 [] (initSystem 3 8 0)).1
      (by decide),
   (receive_danmaku_classifies_and_acknowledges "hi" "gift" 0 [] (initSystem 3 8 0)).2.1
      (by decide),
   (receive_danmaku_classifies_and_acknowledges "hi" "danmaku" 0 [] (initSystem 3 8 0)).2.2
      rfl⟩

/-- Every single dual-bucket operation preserves the state invariant. -/
lemma sysInv_step (s : DualBucketSystem) (op : SysOp) (h : sysInv s = true) :
    sysInv (stepOp s op) = true := by
  obtain ⟨cap, lt, ⟨ad, ast, aact, acon⟩, ⟨bd, bst, bact, bcon⟩, cur⟩ := s
  cases op with
  | query _ => exact h
  | merge _ => exact h
  | mark bid =>
    cases bid <;> cases cur <;>
      simpa [sysInv, stepOp, mark_bucket_consuming, getBucket, activeHasStart] using h
  | switch now =>
    cases cur <;> simp [sysInv, stepOp, switch_bucket, getBucket, activeHasStart]
  | add m now =>
    cases cur <;> cases aact <;> cases acon <;> cases bact <;> cases bcon <;>
      simp_all [sysInv, stepOp, add_danmaku, getBucket, activeHasStart]

/-- The invariant holds along every run. -/
lemma sysInv_runOps (ops : List SysOp) :
    ∀ s, sysInv s = true → sysInv (runOps s ops) = true := by
  induction ops with
  | nil => intro s h; exact h
  | cons o rest ih => intro s h; exact ih (stepOp s o) (sysInv_step s o h)

/-- Under the invariant, `get_consumable_bucket` never hits the unguarded
`None` subtraction. -/
lemma sysInv_gcbOk (s : DualBucketSystem) (now : Int) (h : sysInv s = true) :
    gcbOk s now = true := by
  have hA : s.bucket_a.is_active = false ∨ s.bucket_a.start_time.isSome = true := by
    simp only [sysInv, activeHasStart, Bool.and_eq_true, Bool.or_eq_true,
      Bool.not_eq_true'] at h
    tauto
  unfold gcbOk get_consumable_bucket
  by_cases hc : (s.bucket_a.is_active && !s.bucket_a.is_consuming
      && !s.bucket_a.danmakus.isEmpty) = true
  · have hact : s.bucket_a.is_active = true := by
      rw [Bool.and_eq_true, Bool.and_eq_true] at hc
      exact hc.1.1
    have hsome : s.bucket_a.start_time.isSome = true := by
      rcases hA with h1 | h1
      · rw [hact] at h1; cases h1
      · exact h1
    obtain ⟨t, ht⟩ := Option.isSome_iff_exists.mp hsome
    rw [if_pos hc, ht]
    by_cases hexp : s.bucket_lifetime < now - t
    · simp [hexp]
    · by_cases hb : bucketBReady s now = true <;> simp [hexp, hb]
  · rw [if_neg hc]
    by_cases hb : bucketBReady s now = true <;> simp [hb]

/-- C10: in every state reachable from the initial state by any sequence
of the five public calls, the write target (by construction one of the two
buckets) is active, every active bucket has a non-`None` `start_time`, and
consequently the unguarded age subtraction for bucket A in
`get_consumable_bucket` never operates on a `None` start time. -/
theorem dual_bucket_reachable_state_invariant
    (cap : Nat) (lt t0 : Int) (ops : List SysOp) (now : Int) :
    sysInv (runOps (initSystem cap lt t0) ops) = true ∧
    gcbOk (runOps (initSystem cap lt t0) ops) now = true := by
  have h0 : sysInv (initSystem cap lt t0) = true := rfl
  have h1 := sysInv_runOps ops _ h0
  exact ⟨h1, sysInv_gcbOk _ now h1⟩

/-- A bounded append introduces no message content beyond the appended
message's own. -/
lemma any_content_dequeAppend (c : String) (cap : Nat) (xs : List Msg) (m : Msg)
    (hx : xs.any (fun x => x.content == c) = false) (hm : (m.content == c) = false) :
    (dequeAppend cap xs m).any (fun x => x.content == c) = false := by
  have hall : ∀ x ∈ xs ++ [m], ¬ (x.content == c) = true := by
    rw [List.any_eq_false] at hx
    intro x hxmem
    rw [List.mem_append] at hxmem
    rcases hxmem with h1 | h1
    · exact hx x h1
    · have : x = m := by simpa using h1
      subst this
      simp [hm]
  unfold dequeAppend
  by_cases hcap : cap < (xs ++ [m]).length
  · rw [if_pos hcap, List.any_eq_false]
    intro x hxmem
    exact hall x (List.mem_of_mem_drop hxmem)
  · rw [if_neg hcap, List.any_eq_false]
    exact hall

/-- `add_danmaku` of a message with a different content never makes
content `c` appear in a bucket. -/
lemma msgContentInSys_add (c : String) (s : DualBucketSystem) (m : Msg) (now : Int)
    (h : msgContentInSys c s = false) (hm : (m.content == c) = false) :
    msgContentInSys c (add_danmaku s m now) = false := by
  simp only [msgContentInSys, Bool.or_eq_false_iff] at h
  obtain ⟨ha, hb⟩ := h
  cases hcur : s.current with
  | A =>
    by_cases hcons : (getBucket s .A).is_consuming = true
    · by_cases hact : s.bucket_b.is_active = true
      · simp [add_danmaku, hcur, hcons, hact, msgContentInSys, ha,
          any_content_dequeAppend c s.bucket_capacity s.bucket_b.danmakus m hb hm]
      · simp [add_danmaku, hcur, hcons, hact, msgContentInSys, ha,
          any_content_dequeAppend c s.bucket_capacity s.bucket_b.danmakus m hb hm]
    · simp [add_danmaku, hcur, hcons, msgContentInSys, hb,
        any_content_dequeAppend c s.bucket_capacity s.bucket_a.danmakus m ha hm]
  | B =>
    by_cases hcons : (getBucket s .B).is_consuming = true
    · by_cases hact : s.bucket_a.is_active = true
      · simp [add_danmaku, hcur, hcons, hact, msgContentInSys, hb,
          any_content_dequeAppend c s.bucket_capacity s.bucket_a.danmakus m ha hm]
      · simp [add_danmaku, hcur, hcons, hact, msgContentInSys, hb,
          any_content_dequeAppend c s.bucket_capacity s.bucket_a.danmakus m ha hm]
    · simp [add_danmaku, hcur, hcons, msgContentInSys, ha,
        any_content_dequeAppend c s.bucket_capacity s.bucket_b.danmakus m hb hm]

/-- Along any run that never appends a message with content `c`, content
`c` never reappears in either bucket once absent. -/
lemma msgContentInSys_runOps (c : String) (ops : List SysOp) :
    ∀ s, ops.all (fun o => !opAddsContent c o) = true →
      msgContentInSys c s = false → msgContentInSys c (runOps s ops) = false := by
  induction ops with
  | nil => intro s _ h; exact h
  | cons o rest ih =>
    intro s hall h
    rw [List.all_cons, Bool.and_eq_true] at hall
    have hstep : msgContentInSys c (stepOp s o) = false := by
      cases o with
      | add m now =>
        exact msgContentInSys_add c s m now h (by simpa [opAddsContent] using hall.1)
      | query _ => exact h
      | merge _ => exact h
      | mark bid =>
        cases bid <;> simpa [stepOp, mark_bucket_consuming, msgContentInSys] using h
      | switch now =>
        simp only [msgContentInSys, Bool.or_eq_false_iff] at h
        cases hcur : s.current <;>
          simp [stepOp, switch_bucket, hcur, msgContentInSys, h.1, h.2]
    exact ih (stepOp s o) hall.2 hstep

/-- C1: a concrete interleaving in which an appended ordinary message
never appears in any eventual merged batch.  Message `"x"` is appended at
`t = 0`; bucket A is selected at `t = 10` and marked draining; its merge
contains only `"x"`.  The concurrent `add_danmaku` of `"m"` is correctly
routed to bucket B (the routing half of the claim holds), which becomes
the write target.  `switch_bucket` then keys on the *current* write target
rather than the drained slot: it clears bucket B, discarding `"m"`, which
was never merged.  Afterwards `"m"` is in neither bucket, and no
continuation of the run that does not re-append `"m"` can ever put it back
— so `"m"` appears in no eventual merged batch, refuting "no appended
message is lost". -/
theorem dual_bucket_drain_switch_loses_concurrent_message :
    get_consumable_bucket traceS1 10 = .ok (some .A) ∧
    traceS2.bucket_a.is_consuming = true ∧
    get_merged_danmaku traceS2 .A = some ⟨"message", "x", "danmaku", 1⟩ ∧
    traceS3.bucket_b.danmakus.map (·.content) = ["m"] ∧
    traceS3.current = .B ∧
    msgContentInSys "m" traceS3 = true ∧
    msgContentInSys "m" traceS4 = false ∧
    (∀ ops : List SysOp, ops.all (fun o => !opAddsContent "m" o) = true →
      msgContentInSys "m" (runOps traceS4 ops) = false) := by
  refine ⟨by rfl, by rfl, by rfl, by rfl, by rfl, by rfl, by rfl, ?_⟩
  intro ops hops
  exact msgContentInSys_runOps "m" ops traceS4 hops (by rfl)

/-- Witness for C1's quantified clause at the empty continuation. -/
theorem dual_bucket_drain_switch_loses_concurrent_message_witness :
    msgContentInSys "m" (runOps traceS4 []) = false :=
  (dual_bucket_drain_switch_loses_concurrent_message).2.2.2.2.2.2.2 [] rfl
